import Mathlib

/-!
Shallow embedding of the FanPico core control loop (`src/fanpico.c`): the
change-gated state-update policy, the output-update routine `update_outputs`,
the cooperative scheduler iteration of `main`, the command console line
editor, the state initialisation `clear_state`, and the watchdog discipline.

Floating-point quantities are modelled as rationals.  External collaborators
(sensor drivers, fan-curve computation `calculate_pwm_duty` and
`calculate_tacho_freq`, the command processor, network and display pollers)
are modelled as oracle inputs supplied by an environment record; their calls
are recorded as events so that the number and order of invocations can be
reasoned about.
-/

namespace Fanpico

/-- Absolute value on the rational model of floats (the C `fabsf`), written
with an explicit sign test; `qabs_eq_abs` below identifies it with `|·|`. -/
def qabs (x : ℚ) : ℚ := if x < 0 then -x else x

/-- Modelled from the spec: the helper `check_for_change` is called from
`fanpico.c` but defined outside the given source; spec section 4.2 defines it
as `changed(prev, new, threshold) = |new - prev| >= threshold`, inclusive at
the boundary. -/
def check_for_change (prev newv threshold : ℚ) : Bool :=
  if threshold ≤ qabs (newv - prev) then true else false

/-- The C library `roundf`, as used on sampled duty cycles: round to the
nearest integer, halfway cases away from zero. -/
def roundf (x : ℚ) : ℚ :=
  ((if x < 0 then -⌊(1 : ℚ)/2 - x⌋ else ⌊x + 1/2⌋ : ℤ) : ℚ)

/-- One change-gated update loop over a state array, as in the `for` loops of
`update_outputs` and of the sampling tasks in `main`: index `j` is the index
of the head element.  Returns the updated array together with the list of
`(channel, value)` pairs whose gate fired (each such pair corresponds to one
state write plus one collaborator call / `change++`). -/
def gateLoop (f : Nat → ℚ) (th : ℚ) : Nat → List ℚ → List ℚ × List (Nat × ℚ)
  | _, [] => ([], [])
  | j, x :: xs =>
    let r := gateLoop f th (j+1) xs
    if check_for_change x (f j) th then (f j :: r.1, (j, f j) :: r.2)
    else (x :: r.1, r.2)

/-- `struct fanpico_state`: the fields touched by the core loop. -/
structure FanpicoState where
  fan_duty : List ℚ
  fan_freq : List ℚ
  mbfan_duty : List ℚ
  mbfan_freq : List ℚ
  temp : List ℚ
deriving DecidableEq

/-- `clear_state`: every array entry is set to `0.0`. -/
def clear_state (nMbfan nFan nSensor : Nat) : FanpicoState :=
  { fan_duty := List.replicate nFan 0
    fan_freq := List.replicate nFan 0
    mbfan_duty := List.replicate nMbfan 0
    mbfan_freq := List.replicate nMbfan 0
    temp := List.replicate nSensor 0 }

/-- Result of `update_outputs`: the new state plus the recorded
`set_pwm_duty_cycle` and `set_tacho_output_freq` hardware calls. -/
structure OutResult where
  st : FanpicoState
  pwm_cmds : List (Nat × ℚ)
  tacho_cmds : List (Nat × ℚ)
deriving DecidableEq

/-- `update_outputs`: gate the computed fan duty cycles against threshold
`0.1` and the computed mbfan tacho frequencies against threshold `0.1`; on a
confirmed change the state field is written and the hardware call issued.
The collaborator values `calculate_pwm_duty` / `calculate_tacho_freq` are
supplied as oracles `calc_duty` / `calc_freq`. -/
def update_outputs (st : FanpicoState) (calc_duty calc_freq : Nat → ℚ) : OutResult :=
  let fd := gateLoop calc_duty (1/10) 0 st.fan_duty
  let mf := gateLoop calc_freq (1/10) 0 st.mbfan_freq
  { st := { st with fan_duty := fd.1, mbfan_freq := mf.1 }
    pwm_cmds := fd.2
    tacho_cmds := mf.2 }

/-- The duty-cycle sampling loop of `main` (task `t_poll_pwm`): each raw
sample is rounded with `roundf` and gated against threshold `0.5`. -/
def read_pwm_task (duty : List ℚ) (raw : Nat → ℚ) : List ℚ × List (Nat × ℚ) :=
  gateLoop (fun i => roundf (raw i)) (1/2) 0 duty

/-- The temperature sampling loop of `main` (task `t_temp`): each sensor
reading is gated against threshold `0.5`. -/
def read_temp_task (tl : List ℚ) (temps : Nat → ℚ) : List ℚ × List (Nat × ℚ) :=
  gateLoop temps (1/2) 0 tl

/-! ## Command console -/

/-- `sizeof(input_buf)` in `main`. -/
def input_buf_size : Nat := 1024

/-- Observable events of the console loop: the terminator write
`input_buf[i_ptr] = 0` (recording the index written) and a dispatched line
(one `process_command` call). -/
inductive ConsoleEvent where
  | nulWrite (idx : Nat)
  | dispatch (line : List Nat)
deriving DecidableEq

/-- One step of the console byte loop in `main`.  The buffer is modelled by
its live contents (`i_ptr` is the length).  Sentinel bytes `0xff`/`0x00` are
dropped; backspace (`0x7f`/`0x08`) removes the last buffered byte; CR, LF or
a full buffer write the NUL terminator at index `i_ptr` and, when the buffer
is nonempty, dispatch it and reset; otherwise the byte is appended. -/
def consoleStep (buf : List Nat) (c : Nat) : List Nat × List ConsoleEvent :=
  if c = 255 ∨ c = 0 then (buf, [])
  else if c = 127 ∨ c = 8 then (buf.dropLast, [])
  else if c = 10 ∨ c = 13 ∨ input_buf_size ≤ buf.length then
    if 0 < buf.length then ([], [ConsoleEvent.nulWrite buf.length, ConsoleEvent.dispatch buf])
    else (buf, [ConsoleEvent.nulWrite buf.length])
  else (buf ++ [c], [])

/-- The console pump: drain the available bytes through `consoleStep`,
collecting events in order. -/
def consoleRun : List Nat → List Nat → List Nat × List ConsoleEvent
  | buf, [] => (buf, [])
  | buf, c :: cs =>
    let s := consoleStep buf c
    let r := consoleRun s.1 cs
    (r.1, s.2 ++ r.2)

/-- The lines handed to `process_command`, in order. -/
def dispatches (evs : List ConsoleEvent) : List (List Nat) :=
  evs.filterMap fun e =>
    match e with
    | ConsoleEvent.dispatch l => some l
    | _ => none

/-- A byte that is neither a sentinel (`0x00`/`0xff`), a terminator
(LF/CR) nor a backspace code (`0x7f`/`0x08`). -/
def plainByte (c : Nat) : Prop :=
  c ≠ 0 ∧ c ≠ 255 ∧ c ≠ 10 ∧ c ≠ 13 ∧ c ≠ 127 ∧ c ≠ 8

instance : DecidablePred plainByte := fun c => by
  unfold plainByte
  infer_instance

/-! ## Scheduler loop -/

/-- The tasks of one iteration of the `while (1)` loop of `main`, in
declaration order. -/
inductive SchedTask where
  | network
  | led
  | display
  | pollPwm
  | pollTemp
  | pollTacho
  | output
  | console
  | watchdog
deriving DecidableEq

/-- Modelled from the spec: the helper `time_passed` is called from
`fanpico.c` but defined outside the given source; spec section 4.1: a task
fires when elapsed-since-last-fire is at least its interval, and its
last-fire timestamp is then reset to the current time (drift-accumulating by
design).  Returns (fired, new last-fire timestamp); times in milliseconds. -/
def time_passed (t now ms : Nat) : Bool × Nat :=
  if t + ms ≤ now then (true, now) else (false, t)

/-- Oracle inputs of one scheduler iteration: the current time, the
configuration fields the loop reads, the sensor values the excluded drivers
would deliver, the fan-curve computations, the capture-worker frequency
update, and the bytes queued on the console. -/
structure Env where
  now : Nat
  led_mode : Nat
  pwm_raw : Nat → ℚ
  temps : Nat → ℚ
  tacho : List ℚ → List ℚ
  calc_duty : Nat → ℚ
  calc_freq : Nat → ℚ
  console_in : List Nat

/-- The local state of `main` that survives between loop iterations. -/
structure LoopState where
  st : FanpicoState
  t_poll_pwm : Nat
  t_poll_tacho : Nat
  t_led : Nat
  t_temp : Nat
  t_set_outputs : Nat
  t_network : Nat
  t_display : Nat
  t_last : Nat
  max_delta : Int
  led_state : Nat
  input_buf : List Nat

def p_network (ls : LoopState) (env : Env) : Bool × Nat :=
  time_passed ls.t_network env.now 1

def p_led (ls : LoopState) (env : Env) : Bool × Nat :=
  time_passed ls.t_led env.now 1000

def p_display (ls : LoopState) (env : Env) : Bool × Nat :=
  time_passed ls.t_display env.now 2000

def p_pwm (ls : LoopState) (env : Env) : Bool × Nat :=
  time_passed ls.t_poll_pwm env.now 1500

def p_temp (ls : LoopState) (env : Env) : Bool × Nat :=
  time_passed ls.t_temp env.now 10000

def p_tacho (ls : LoopState) (env : Env) : Bool × Nat :=
  time_passed ls.t_poll_tacho env.now 2000

/-- The LED task body: mode 0 toggles, mode 1 forces on, any other mode
forces off. -/
def led_step (ls : LoopState) (env : Env) : Nat :=
  if (p_led ls env).1 then
    if env.led_mode = 0 then (if 0 < ls.led_state then 0 else 1)
    else if env.led_mode = 1 then 1
    else 0
  else ls.led_state

/-- Effect of the duty-cycle sampling task this iteration (identity when its
interval has not elapsed). -/
def duty_step (ls : LoopState) (env : Env) : List ℚ × List (Nat × ℚ) :=
  if (p_pwm ls env).1 then read_pwm_task ls.st.mbfan_duty env.pwm_raw
  else (ls.st.mbfan_duty, [])

/-- Effect of the temperature sampling task this iteration. -/
def temp_step (ls : LoopState) (env : Env) : List ℚ × List (Nat × ℚ) :=
  if (p_temp ls env).1 then read_temp_task ls.st.temp env.temps
  else (ls.st.temp, [])

/-- `t_set_outputs` after the duty sampling task: any confirmed duty change
executes `update_us_since_boot(&t_set_outputs, 0)`. -/
def t_so_after_pwm (ls : LoopState) (env : Env) : Nat :=
  if (duty_step ls env).2 = [] then ls.t_set_outputs else 0

/-- The value of the `change` counter at the output-update check: one
increment per gate-confirmed duty sample plus one per gate-confirmed
temperature sample. -/
def iter_change (ls : LoopState) (env : Env) : Nat :=
  (duty_step ls env).2.length + (temp_step ls env).2.length

/-- The output-update condition `change || time_passed(&t_set_outputs, 3000)`
with C short-circuit evaluation, returning the fire decision and the new
`t_set_outputs`. -/
def p_output (ls : LoopState) (env : Env) : Bool × Nat :=
  if 0 < iter_change ls env then (true, t_so_after_pwm ls env)
  else time_passed (t_so_after_pwm ls env) env.now 3000

/-- The system state after the three sampling tasks, before the
output-update check. -/
def sampled_state (ls : LoopState) (env : Env) : FanpicoState :=
  { ls.st with
    mbfan_duty := (duty_step ls env).1
    temp := (temp_step ls env).1
    fan_freq := if (p_tacho ls env).1 then env.tacho ls.st.fan_freq else ls.st.fan_freq }

/-- The output-update task: `update_outputs` runs on the post-sampling state
exactly when `p_output` fired. -/
def out_step (ls : LoopState) (env : Env) : OutResult :=
  if (p_output ls env).1 then
    update_outputs (sampled_state ls env) env.calc_duty env.calc_freq
  else
    { st := sampled_state ls env, pwm_cmds := [], tacho_cmds := [] }

/-- Trace fragment of a conditionally executed task. -/
def optTask (b : Bool) (t : SchedTask) : List SchedTask :=
  if b then [t] else []

/-- The tasks executed in one loop iteration, in program order.  The console
pump and the watchdog refresh run unconditionally at the end of every
iteration. -/
def iter_trace (ls : LoopState) (env : Env) : List SchedTask :=
  optTask (p_network ls env).1 SchedTask.network ++
    (optTask (p_led ls env).1 SchedTask.led ++
      (optTask (p_display ls env).1 SchedTask.display ++
        (optTask (p_pwm ls env).1 SchedTask.pollPwm ++
          (optTask (p_temp ls env).1 SchedTask.pollTemp ++
            (optTask (p_tacho ls env).1 SchedTask.pollTacho ++
              (optTask (p_output ls env).1 SchedTask.output ++
                [SchedTask.console, SchedTask.watchdog]))))))

/-- Result of one scheduler iteration. -/
structure IterResult where
  ls : LoopState
  trace : List SchedTask
  change : Nat
  dispatched : List (List Nat)
  pwm_cmds : List (Nat × ℚ)
  tacho_cmds : List (Nat × ℚ)

/-- One iteration of the `while (1)` loop of `main`, in program order:
latency diagnostics, network poll, LED task, display task, duty-cycle
sampling, temperature sampling, tacho-frequency task, output update, console
pump, watchdog refresh. -/
def main_loop_iter (ls : LoopState) (env : Env) : IterResult :=
  let con := consoleRun ls.input_buf env.console_in
  { ls :=
      { st := (out_step ls env).st
        t_poll_pwm := (p_pwm ls env).2
        t_poll_tacho := (p_tacho ls env).2
        t_led := (p_led ls env).2
        t_temp := (p_temp ls env).2
        t_set_outputs := (p_output ls env).2
        t_network := (p_network ls env).2
        t_display := (p_display ls env).2
        t_last := env.now
        max_delta := max ls.max_delta ((env.now : Int) - (ls.t_last : Int))
        led_state := led_step ls env
        input_buf := con.1 }
    trace := iter_trace ls env
    change := iter_change ls env
    dispatched := dispatches con.2
    pwm_cmds := (out_step ls env).pwm_cmds
    tacho_cmds := (out_step ls env).tacho_cmds }

/-- Run the scheduler loop for one iteration per environment in the list. -/
def main_loop_run (ls : LoopState) (envs : List Env) : LoopState :=
  envs.foldl (fun s e => (main_loop_iter s e).ls) ls

/-- The local state of `main` on entry to the scheduler loop: `clear_state`
has run, all task timestamps are the zero time except the display timestamp,
which (like `t_last`) is the boot time read just before the loop. -/
def main_init (boot_now nMbfan nFan nSensor : Nat) : LoopState :=
  { st := clear_state nMbfan nFan nSensor
    t_poll_pwm := 0
    t_poll_tacho := 0
    t_led := 0
    t_temp := 0
    t_set_outputs := 0
    t_network := 0
    t_display := boot_now
    t_last := boot_now
    max_delta := 0
    led_state := 0
    input_buf := [] }

/-- The boot-time steps of `main` that precede the scheduler loop. -/
inductive BootStep where
  | setBinaryInfo
  | clearState
  | setup
  | launchCore1
  | watchdogArm
deriving DecidableEq

/-- `main` before `while (1)`: state cleared, hardware set up, the second
core launched, then the watchdog armed (with `WATCHDOG_ENABLED`). -/
def main_boot : List BootStep :=
  [BootStep.setBinaryInfo, BootStep.clearState, BootStep.setup,
   BootStep.launchCore1, BootStep.watchdogArm]

/-- A concrete environment used to evaluate the loop at sample inputs:
100 s after boot, all three sampled duty cycles jump from 0 to 50 %. -/
def wEnv : Env :=
  { now := 100000
    led_mode := 0
    pwm_raw := fun _ => 50
    temps := fun _ => 0
    tacho := fun l => l
    calc_duty := fun _ => 0
    calc_freq := fun _ => 0
    console_in := [] }

/-- A concrete loop state used to evaluate the loop at sample inputs:
fresh boot state with 3 mbfan channels, 1 fan and 1 sensor. -/
def wLs : LoopState := main_init 0 3 1 1

/-! ## Console lemmas -/

theorem consoleStep_plain (buf : List Nat) (c : Nat) (hc : plainByte c)
    (hlen : buf.length < input_buf_size) :
    consoleStep buf c = (buf ++ [c], []) := by
  obtain ⟨h0, h255, h10, h13, h127, h8⟩ := hc
  simp [consoleStep, h0, h255, h10, h13, h127, h8, Nat.not_le.mpr hlen]

theorem consoleRun_plain : ∀ (feed buf : List Nat),
    (∀ b ∈ feed, plainByte b) → buf.length + feed.length ≤ input_buf_size →
    consoleRun buf feed = (buf ++ feed, []) := by
  intro feed
  induction feed with
  | nil => intro buf _ _; simp [consoleRun]
  | cons c cs ih =>
    intro buf hplain hlen
    have hc : plainByte c := hplain c (by simp)
    have hlt : buf.length < input_buf_size := by
      simp only [List.length_cons] at hlen; omega
    simp only [consoleRun]
    rw [consoleStep_plain buf c hc hlt]
    rw [ih (buf ++ [c]) (fun b hb => hplain b (by simp [hb]))
        (by simp only [List.length_append, List.length_cons,
              List.length_nil] at hlen ⊢; omega)]
    simp

theorem consoleRun_append (as bs : List Nat) : ∀ buf,
    consoleRun buf (as ++ bs) =
      ((consoleRun (consoleRun buf as).1 bs).1,
        (consoleRun buf as).2 ++ (consoleRun (consoleRun buf as).1 bs).2) := by
  induction as with
  | nil => intro buf; simp [consoleRun]
  | cons c cs ih =>
    intro buf
    simp only [List.cons_append, consoleRun, List.append_eq]
    rw [ih]
    simp [List.append_assoc]

theorem consoleStep_dispatch_ne_nil (buf : List Nat) (c : Nat) (l : List Nat)
    (h : ConsoleEvent.dispatch l ∈ (consoleStep buf c).2) : l ≠ [] := by
  unfold consoleStep at h
  split_ifs at h with h1 h2 h3 h4
  · simp at h
  · simp at h
  · simp only [Prod.snd, List.mem_cons, List.mem_singleton] at h
    rcases h with h | h | h
    · exact absurd h (by simp)
    · obtain rfl : l = buf := by injection h
      exact List.length_pos.mp h4
    · exact absurd h (by simp at h)
  · simp at h
  · simp at h

theorem consoleRun_dispatch_ne_nil (feed : List Nat) : ∀ (buf l : List Nat),
    ConsoleEvent.dispatch l ∈ (consoleRun buf feed).2 → l ≠ [] := by
  induction feed with
  | nil => intro buf l h; simp [consoleRun] at h
  | cons c cs ih =>
    intro buf l h
    simp only [consoleRun, List.mem_append] at h
    rcases h with h | h
    · exact consoleStep_dispatch_ne_nil buf c l h
    · exact ih _ l h

theorem consoleStep_full (buf : List Nat) (c : Nat) (hc : plainByte c)
    (hlen : input_buf_size ≤ buf.length) (hpos : 0 < buf.length) :
    consoleStep buf c
      = ([], [ConsoleEvent.nulWrite buf.length, ConsoleEvent.dispatch buf]) := by
  obtain ⟨h0, h255, h10, h13, h127, h8⟩ := hc
  simp [consoleStep, h0, h255, h10, h13, h127, h8, hlen, hpos]

theorem consoleRun_singleton (buf : List Nat) (c : Nat) :
    consoleRun buf [c] = consoleStep buf c := by
  simp [consoleRun]

/-! ## Console claims -/

/-- C2: feeding 1025 non-terminator, non-sentinel, non-backspace bytes into
an empty console buffer produces exactly one (forced) dispatch, whose line is
exactly the first 1024 bytes, and leaves the buffer empty. -/
theorem C2_overflow_truncate_dispatch (feed : List Nat)
    (hlen : feed.length = 1025) (hplain : ∀ b ∈ feed, plainByte b) :
    dispatches (consoleRun [] feed).2 = [feed.take 1024] ∧
      (consoleRun [] feed).1 = [] := by
  have hsplit : feed = feed.take 1024 ++ feed.drop 1024 :=
    (List.take_append_drop 1024 feed).symm
  have hlt : (feed.take 1024).length = 1024 := by
    simp [List.length_take, hlen]
  have hd : (feed.drop 1024).length = 1 := by simp [List.length_drop, hlen]
  obtain ⟨y, hy⟩ := List.length_eq_one.mp hd
  have hyp : plainByte y :=
    hplain y (List.drop_subset 1024 feed (by simp [hy]))
  have hstep : consoleStep (feed.take 1024) y
      = ([], [ConsoleEvent.nulWrite 1024, ConsoleEvent.dispatch (feed.take 1024)]) := by
    obtain ⟨h0, h255, h10, h13, h127, h8⟩ := hyp
    simp [consoleStep, h0, h255, h10, h13, h127, h8, input_buf_size, hlt]
  have key : consoleRun [] feed
      = ([], [ConsoleEvent.nulWrite 1024, ConsoleEvent.dispatch (feed.take 1024)]) := by
    conv_lhs => rw [hsplit]
    rw [consoleRun_append,
      consoleRun_plain (feed.take 1024) [] (fun b hb => hplain b (List.take_subset 1024 feed hb))
        (by simp [hlt, input_buf_size])]
    simp only [List.nil_append]
    rw [hy]
    simp [consoleRun, hstep]
  rw [key]
  simp [dispatches]

theorem C2_witness :
    dispatches (consoleRun [] (List.replicate 1025 97)).2
        = [(List.replicate 1025 97).take 1024] ∧
      (consoleRun [] (List.replicate 1025 97)).1 = [] :=
  C2_overflow_truncate_dispatch (List.replicate 1025 97)
    (by rw [List.length_replicate])
    (fun b hb => by
      rw [List.eq_of_mem_replicate hb]
      exact ⟨by decide, by decide, by decide, by decide, by decide, by decide⟩)

/-- C8: the run that overflows the console buffer performs the terminator
write `input_buf[i_ptr] = 0` at index 1024, which is not a valid index of the
1024-byte buffer: the claimed bound `i_ptr ≤ 1023` fails on this input. -/
theorem C8_nul_write_out_of_bounds :
    ConsoleEvent.nulWrite 1024 ∈ (consoleRun [] (List.replicate 1025 97)).2 ∧
      ¬ 1024 < input_buf_size := by
  constructor
  · have h97 : plainByte 97 := by decide
    have hplain : ∀ b ∈ List.replicate 1024 97, plainByte b := fun b hb => by
      rw [List.eq_of_mem_replicate hb]; exact h97
    have hlenr : (List.replicate 1024 (97 : Nat)).length = 1024 :=
      List.length_replicate 1024 97
    have hsplit : List.replicate 1025 (97 : Nat) = List.replicate 1024 97 ++ [97] := by
      rw [show (1025 : Nat) = 1024 + 1 from rfl, List.replicate_succ']
    have h1 : consoleRun [] (List.replicate 1024 97) = (List.replicate 1024 97, []) :=
      consoleRun_plain _ _ hplain (by rw [List.length_nil, hlenr]; decide)
    have hstep : consoleStep (List.replicate 1024 97) 97
        = ([], [ConsoleEvent.nulWrite 1024,
                ConsoleEvent.dispatch (List.replicate 1024 97)]) := by
      rw [consoleStep_full _ _ h97 (by rw [hlenr]; decide) (by rw [hlenr]; decide), hlenr]
    have key : consoleRun [] (List.replicate 1025 97)
        = ([], [ConsoleEvent.nulWrite 1024,
                ConsoleEvent.dispatch (List.replicate 1024 97)]) := by
      rw [hsplit, consoleRun_append, h1]
      rw [show ((List.replicate 1024 97, ([] : List ConsoleEvent))).1
            = List.replicate 1024 97 from rfl]
      rw [consoleRun_singleton, hstep]
      rfl
    rw [key]
    exact List.mem_cons_self _ _
  · decide

/-- C3 counterexample: the byte sequence `f a n <backspace> x <CR>` does not
dispatch the line `"x"`: backspace removes only the final buffered byte, so
the dispatched line is `"fax"`. -/
theorem C3_counterexample :
    dispatches (consoleRun [] [102, 97, 110, 127, 120, 13]).2 ≠ [[120]] := by
  decide

/-- C3 (amended): the byte sequence `f a n <backspace> x <CR>` into an empty
buffer dispatches the line `"fax"` exactly once and resets the buffer to
empty; a backspace byte (127 or 8) removes the last buffered character. -/
theorem C3_backspace_edit :
    dispatches (consoleRun [] [102, 97, 110, 127, 120, 13]).2 = [[102, 97, 120]] ∧
      (consoleRun [] [102, 97, 110, 127, 120, 13]).1 = [] ∧
      ∀ (buf : List Nat) (c : Nat), c = 127 ∨ c = 8 →
        consoleStep buf c = (buf.dropLast, []) := by
  refine ⟨by decide, by decide, ?_⟩
  intro buf c hc
  rcases hc with h | h <;> subst h <;> simp [consoleStep]

theorem C3_witness :
    consoleStep [102, 97] 127 = (List.dropLast [102, 97], []) :=
  C3_backspace_edit.2.2 [102, 97] 127 (Or.inl rfl)

/-- C9: the command processor never receives an empty line: every dispatched
line is nonempty, and a CR or LF arriving while the buffer is empty is
consumed without any dispatch (only the terminator write happens). -/
theorem C9_no_empty_dispatch :
    (∀ (buf feed l : List Nat),
        ConsoleEvent.dispatch l ∈ (consoleRun buf feed).2 → l ≠ []) ∧
      consoleStep [] 13 = ([], [ConsoleEvent.nulWrite 0]) ∧
      consoleStep [] 10 = ([], [ConsoleEvent.nulWrite 0]) :=
  ⟨fun buf feed l h => consoleRun_dispatch_ne_nil feed buf l h, by decide, by decide⟩

theorem C9_witness :
    ConsoleEvent.dispatch [102] ∈ (consoleRun [] [102, 13]).2 ∧
      [102] ≠ ([] : List Nat) :=
  ⟨by decide, C9_no_empty_dispatch.1 [] [102, 13] [102] (by decide)⟩

/-! ## Scheduler lemmas -/

theorem qabs_eq_abs (x : ℚ) : qabs x = |x| := by
  unfold qabs
  split_ifs with h
  · rw [abs_of_neg h]
  · rw [abs_of_nonneg (not_lt.mp h)]

theorem time_passed_fst (t now ms : Nat) :
    (time_passed t now ms).1 = true ↔ t + ms ≤ now := by
  unfold time_passed
  split_ifs with h <;> simp [h]

theorem main_loop_iter_trace (ls : LoopState) (env : Env) :
    (main_loop_iter ls env).trace = iter_trace ls env := rfl

theorem main_loop_iter_change (ls : LoopState) (env : Env) :
    (main_loop_iter ls env).change = iter_change ls env := rfl

theorem mem_optTask (a t : SchedTask) (b : Bool) :
    a ∈ optTask b t ↔ (b = true ∧ a = t) := by
  cases b <;> simp [optTask]

theorem count_optTask (a t : SchedTask) (b : Bool) :
    (optTask b t).count a = if b = true ∧ a = t then 1 else 0 := by
  cases b <;> by_cases h : a = t <;> simp [optTask, h, List.count_cons]

theorem p_output_fst (ls : LoopState) (env : Env) :
    ((p_output ls env).1 = true) ↔
      (0 < iter_change ls env ∨ ls.t_set_outputs + 3000 ≤ env.now) := by
  unfold p_output
  by_cases hc : 0 < iter_change ls env
  · simp [hc]
  · have hd : (duty_step ls env).2 = [] := by
      have hl : (duty_step ls env).2.length = 0 := by
        unfold iter_change at hc; omega
      exact List.length_eq_zero.mp hl
    simp [hc, time_passed_fst, t_so_after_pwm, hd]

theorem iter_trace_count_output (ls : LoopState) (env : Env) :
    (iter_trace ls env).count SchedTask.output
      = if (p_output ls env).1 = true then 1 else 0 := by
  unfold iter_trace
  simp [List.count_append, count_optTask, List.count_cons]

theorem mem_iter_trace_network (ls : LoopState) (env : Env) :
    SchedTask.network ∈ iter_trace ls env ↔ (p_network ls env).1 = true := by
  unfold iter_trace
  simp [mem_optTask]

theorem mem_iter_trace_led (ls : LoopState) (env : Env) :
    SchedTask.led ∈ iter_trace ls env ↔ (p_led ls env).1 = true := by
  unfold iter_trace
  simp [mem_optTask]

theorem mem_iter_trace_display (ls : LoopState) (env : Env) :
    SchedTask.display ∈ iter_trace ls env ↔ (p_display ls env).1 = true := by
  unfold iter_trace
  simp [mem_optTask]

theorem mem_iter_trace_pollPwm (ls : LoopState) (env : Env) :
    SchedTask.pollPwm ∈ iter_trace ls env ↔ (p_pwm ls env).1 = true := by
  unfold iter_trace
  simp [mem_optTask]

theorem mem_iter_trace_pollTemp (ls : LoopState) (env : Env) :
    SchedTask.pollTemp ∈ iter_trace ls env ↔ (p_temp ls env).1 = true := by
  unfold iter_trace
  simp [mem_optTask]

theorem mem_iter_trace_pollTacho (ls : LoopState) (env : Env) :
    SchedTask.pollTacho ∈ iter_trace ls env ↔ (p_tacho ls env).1 = true := by
  unfold iter_trace
  simp [mem_optTask]

theorem mem_iter_trace_output (ls : LoopState) (env : Env) :
    SchedTask.output ∈ iter_trace ls env ↔ (p_output ls env).1 = true := by
  unfold iter_trace
  simp [mem_optTask]

theorem optTask_sublist (b : Bool) (t : SchedTask) : (optTask b t).Sublist [t] := by
  cases b
  · exact List.nil_sublist [t]
  · exact List.Sublist.refl [t]

theorem iter_trace_sublist (ls : LoopState) (env : Env) :
    (iter_trace ls env).Sublist
      [SchedTask.network, SchedTask.led, SchedTask.display, SchedTask.pollPwm,
       SchedTask.pollTemp, SchedTask.pollTacho, SchedTask.output,
       SchedTask.console, SchedTask.watchdog] := by
  show (iter_trace ls env).Sublist
    ([SchedTask.network] ++ ([SchedTask.led] ++ ([SchedTask.display] ++
      ([SchedTask.pollPwm] ++ ([SchedTask.pollTemp] ++ ([SchedTask.pollTacho] ++
        ([SchedTask.output] ++ [SchedTask.console, SchedTask.watchdog])))))))
  unfold iter_trace
  exact List.Sublist.append (optTask_sublist _ _)
    (List.Sublist.append (optTask_sublist _ _)
      (List.Sublist.append (optTask_sublist _ _)
        (List.Sublist.append (optTask_sublist _ _)
          (List.Sublist.append (optTask_sublist _ _)
            (List.Sublist.append (optTask_sublist _ _)
              (List.Sublist.append (optTask_sublist _ _)
                (List.Sublist.refl _)))))))

theorem iter_trace_getLast (ls : LoopState) (env : Env) :
    (iter_trace ls env).getLast? = some SchedTask.watchdog := by
  unfold iter_trace
  rw [List.getLast?_append_of_ne_nil, List.getLast?_append_of_ne_nil,
    List.getLast?_append_of_ne_nil, List.getLast?_append_of_ne_nil,
    List.getLast?_append_of_ne_nil, List.getLast?_append_of_ne_nil,
    List.getLast?_append_of_ne_nil]
  · rfl
  all_goals simp [optTask]

/-! ## Scheduler claims -/

/-- C4: however many distinct channels pass their change gates in one
scheduler iteration, the iteration performs exactly one output-update
invocation (`update_outputs` appears exactly once in the task trace). -/
theorem C4_single_update_invocation (ls : LoopState) (env : Env)
    (h : 1 ≤ (main_loop_iter ls env).change) :
    (main_loop_iter ls env).trace.count SchedTask.output = 1 := by
  rw [main_loop_iter_trace, iter_trace_count_output, if_pos]
  refine (p_output_fst ls env).mpr (Or.inl ?_)
  rw [main_loop_iter_change] at h
  omega

/-- C5: the output-update task runs exactly when some sample change was
detected earlier in the same iteration (the `change` counter) or the 3000 ms
fallback has elapsed, and when it runs, no sampling task comes after it in
the iteration's task order. -/
theorem C5_output_update_gating (ls : LoopState) (env : Env) :
    ((main_loop_iter ls env).trace.count SchedTask.output = 1 ↔
      (1 ≤ (main_loop_iter ls env).change ∨ ls.t_set_outputs + 3000 ≤ env.now)) ∧
    ((main_loop_iter ls env).trace.count SchedTask.output = 1 →
      ∃ pre post, (main_loop_iter ls env).trace = pre ++ SchedTask.output :: post ∧
        SchedTask.pollPwm ∉ post ∧ SchedTask.pollTemp ∉ post) := by
  constructor
  · rw [main_loop_iter_trace, main_loop_iter_change, iter_trace_count_output]
    by_cases hf : (p_output ls env).1 = true
    · simp only [if_pos hf]
      have h2 := (p_output_fst ls env).mp hf
      constructor
      · intro _
        rcases h2 with h2 | h2
        · exact Or.inl (by omega)
        · exact Or.inr h2
      · intro _; trivial
    · simp only [if_neg hf]
      constructor
      · intro h; omega
      · intro h
        exfalso
        refine hf ((p_output_fst ls env).mpr ?_)
        rcases h with h | h
        · exact Or.inl (by omega)
        · exact Or.inr h
  · intro h
    rw [main_loop_iter_trace, iter_trace_count_output] at h
    have hf : (p_output ls env).1 = true := by
      by_contra hf
      rw [if_neg hf] at h
      omega
    refine ⟨optTask (p_network ls env).1 SchedTask.network ++
        (optTask (p_led ls env).1 SchedTask.led ++
          (optTask (p_display ls env).1 SchedTask.display ++
            (optTask (p_pwm ls env).1 SchedTask.pollPwm ++
              (optTask (p_temp ls env).1 SchedTask.pollTemp ++
                optTask (p_tacho ls env).1 SchedTask.pollTacho)))),
      [SchedTask.console, SchedTask.watchdog], ?_, by simp, by simp⟩
    rw [main_loop_iter_trace]
    unfold iter_trace
    rw [hf]
    simp [optTask, List.append_assoc]

/-- C6: each iteration evaluates the tasks in the fixed declared order
(network poll, LED, display, duty-cycle sampling, temperature sampling,
frequency computation, output update, console pump, watchdog), firing each
timed task exactly when its stated interval – 1, 1000, 2000, 1500, 10000,
2000 ms, and 3000 ms fallback for the output update – has elapsed, with the
console pump and the watchdog refresh in every iteration. -/
theorem C6_declared_schedule (ls : LoopState) (env : Env) :
    (main_loop_iter ls env).trace.Sublist
      [SchedTask.network, SchedTask.led, SchedTask.display, SchedTask.pollPwm,
       SchedTask.pollTemp, SchedTask.pollTacho, SchedTask.output,
       SchedTask.console, SchedTask.watchdog] ∧
    (SchedTask.network ∈ (main_loop_iter ls env).trace ↔ ls.t_network + 1 ≤ env.now) ∧
    (SchedTask.led ∈ (main_loop_iter ls env).trace ↔ ls.t_led + 1000 ≤ env.now) ∧
    (SchedTask.display ∈ (main_loop_iter ls env).trace ↔ ls.t_display + 2000 ≤ env.now) ∧
    (SchedTask.pollPwm ∈ (main_loop_iter ls env).trace ↔ ls.t_poll_pwm + 1500 ≤ env.now) ∧
    (SchedTask.pollTemp ∈ (main_loop_iter ls env).trace ↔ ls.t_temp + 10000 ≤ env.now) ∧
    (SchedTask.pollTacho ∈ (main_loop_iter ls env).trace ↔ ls.t_poll_tacho + 2000 ≤ env.now) ∧
    (SchedTask.output ∈ (main_loop_iter ls env).trace ↔
      (1 ≤ (main_loop_iter ls env).change ∨ ls.t_set_outputs + 3000 ≤ env.now)) ∧
    SchedTask.console ∈ (main_loop_iter ls env).trace ∧
    SchedTask.watchdog ∈ (main_loop_iter ls env).trace := by
  rw [main_loop_iter_trace, main_loop_iter_change]
  refine ⟨iter_trace_sublist ls env, ?_, ?_, ?_, ?_, ?_, ?_, ?_, ?_, ?_⟩
  · rw [mem_iter_trace_network]; unfold p_network; exact time_passed_fst _ _ _
  · rw [mem_iter_trace_led]; unfold p_led; exact time_passed_fst _ _ _
  · rw [mem_iter_trace_display]; unfold p_display; exact time_passed_fst _ _ _
  · rw [mem_iter_trace_pollPwm]; unfold p_pwm; exact time_passed_fst _ _ _
  · rw [mem_iter_trace_pollTemp]; unfold p_temp; exact time_passed_fst _ _ _
  · rw [mem_iter_trace_pollTacho]; unfold p_tacho; exact time_passed_fst _ _ _
  · rw [mem_iter_trace_output, p_output_fst]
    constructor
    · intro h; rcases h with h | h
      · exact Or.inl (by omega)
      · exact Or.inr h
    · intro h; rcases h with h | h
      · exact Or.inl (by omega)
      · exact Or.inr h
  · unfold iter_trace; simp
  · unfold iter_trace; simp

theorem C6_witness : SchedTask.watchdog ∈ (main_loop_iter wLs wEnv).trace :=
  (C6_declared_schedule wLs wEnv).2.2.2.2.2.2.2.2.2

/-- C7: the watchdog is armed once at boot, as the last step before the
scheduler loop starts, and every iteration of the loop ends with the
unconditional watchdog refresh: no iteration trace lacks it. -/
theorem C7_watchdog_refresh :
    main_boot.count BootStep.watchdogArm = 1 ∧
    main_boot.getLast? = some BootStep.watchdogArm ∧
    ∀ (ls : LoopState) (env : Env),
      (main_loop_iter ls env).trace ≠ [] ∧
      (main_loop_iter ls env).trace.getLast? = some SchedTask.watchdog := by
  refine ⟨by decide, by decide, fun ls env => ⟨?_, ?_⟩⟩
  · rw [main_loop_iter_trace]
    intro h
    have := iter_trace_getLast ls env
    rw [h] at this
    simp at this
  · rw [main_loop_iter_trace]
    exact iter_trace_getLast ls env

theorem w_change : (main_loop_iter wLs wEnv).change = 3 := by
  rw [main_loop_iter_change]
  norm_num [iter_change, duty_step, temp_step, p_pwm, p_temp, time_passed,
    read_pwm_task, read_temp_task, gateLoop, check_for_change, qabs, roundf,
    wLs, wEnv, main_init, clear_state]

theorem C4_witness :
    1 ≤ (main_loop_iter wLs wEnv).change ∧
      (main_loop_iter wLs wEnv).trace.count SchedTask.output = 1 :=
  ⟨by rw [w_change]; norm_num,
   C4_single_update_invocation wLs wEnv (by rw [w_change]; norm_num)⟩

theorem C5_witness : (main_loop_iter wLs wEnv).trace.count SchedTask.output = 1 :=
  (C5_output_update_gating wLs wEnv).1.mpr (Or.inl (by rw [w_change]; norm_num))

/-! ## Change-gate lemmas -/

theorem gateLoop_fst_getElem (f : Nat → ℚ) (th : ℚ) :
    ∀ (xs : List ℚ) (j i : Nat),
      (gateLoop f th j xs).1[i]?
        = (xs[i]?).map (fun old => if th ≤ |f (j + i) - old| then f (j + i) else old) := by
  intro xs
  induction xs with
  | nil => intro j i; simp [gateLoop]
  | cons x xs ih =>
    intro j i
    cases i with
    | zero =>
      rw [Nat.add_zero]
      by_cases h : th ≤ |f j - x|
      · simp [gateLoop, check_for_change, qabs_eq_abs, h]
      · simp [gateLoop, check_for_change, qabs_eq_abs, h]
    | succ n =>
      have e : j + 1 + n = j + (n + 1) := by omega
      by_cases h : th ≤ |f j - x| <;>
        simp [gateLoop, check_for_change, qabs_eq_abs, h, ih (j + 1), e]

theorem gateLoop_below (f : Nat → ℚ) (th : ℚ) :
    ∀ (xs : List ℚ) (j : Nat),
      (∀ i old, xs[i]? = some old → |f (j + i) - old| < th) →
      gateLoop f th j xs = (xs, []) := by
  intro xs
  induction xs with
  | nil => intro j _; simp [gateLoop]
  | cons x xs ih =>
    intro j h
    have hx : |f j - x| < th := by
      have h0 := h 0 x (by simp)
      simpa using h0
    have hrest : ∀ i old, xs[i]? = some old → |f (j + 1 + i) - old| < th := by
      intro i old hio
      have hi := h (i + 1) old (by simpa using hio)
      have e : j + (i + 1) = j + 1 + i := by omega
      rwa [e] at hi
    simp [gateLoop, ih (j + 1) hrest, check_for_change, qabs_eq_abs, not_le.mpr hx]

theorem gateLoop_fst_mem (f : Nat → ℚ) (th : ℚ) :
    ∀ (xs : List ℚ) (j : Nat) (x : ℚ), x ∈ (gateLoop f th j xs).1 →
      x ∈ xs ∨ ∃ i, x = f i := by
  intro xs
  induction xs with
  | nil => intro j x hx; simp [gateLoop] at hx
  | cons y ys ih =>
    intro j x hx
    by_cases h : check_for_change y (f j) th = true
    · simp only [gateLoop, h, if_true] at hx
      rcases List.mem_cons.mp hx with rfl | hx
      · exact Or.inr ⟨j, rfl⟩
      · rcases ih (j + 1) x hx with hm | hm
        · exact Or.inl (List.mem_cons_of_mem _ hm)
        · exact Or.inr hm
    · simp only [gateLoop, h, if_false] at hx
      rcases List.mem_cons.mp hx with rfl | hx
      · exact Or.inl (List.mem_cons_self _ _)
      · rcases ih (j + 1) x hx with hm | hm
        · exact Or.inl (List.mem_cons_of_mem _ hm)
        · exact Or.inr hm

/-! ## Change-gate claims -/

/-- C1 counterexample: in `update_outputs` the mbfan tacho frequency gate
compares against 0.1, not the claimed 0.5 Hz: a frequency delta of 0.3 Hz
(below the claimed 0.5 threshold) is not ignored — the state field is
updated and the output is reprogrammed.  Likewise the sampled duty-cycle
gate compares against 0.5, not the claimed 0.1: a duty delta of 0.3 (at
least the claimed 0.1 threshold) is ignored by the code. -/
theorem C1_counterexample :
    |(3 : ℚ)/10 - 0| < 1/2 ∧
    (update_outputs ⟨[], [], [], [0], []⟩ (fun _ => 0) (fun _ => (3 : ℚ)/10)).st.mbfan_freq
      = [3/10] ∧
    (update_outputs ⟨[], [], [], [0], []⟩ (fun _ => 0) (fun _ => (3 : ℚ)/10)).tacho_cmds
      = [(0, 3/10)] ∧
    (1 : ℚ)/10 ≤ |roundf ((1 : ℚ)/10) - 3/10| ∧
    (read_pwm_task [(3 : ℚ)/10] (fun _ => (1 : ℚ)/10)).1 = [3/10] := by
  have habs : |(3 : ℚ)/10| = 3/10 := abs_of_nonneg (by norm_num)
  refine ⟨by rw [sub_zero, habs]; norm_num, ?_, ?_, ?_, ?_⟩
  · norm_num [update_outputs, gateLoop, check_for_change, qabs]
  · norm_num [update_outputs, gateLoop, check_for_change, qabs]
  · norm_num [roundf]
    rw [habs]
    norm_num
  · norm_num [read_pwm_task, gateLoop, check_for_change, qabs, roundf]

/-- C1 (amended): the change-gate thresholds actually used are 0.1 for the
fan duty-cycle outputs and 0.1 for the mbfan tacho frequency outputs in
`update_outputs`, and 0.5 for the sampled (rounded) mbfan duty cycles and
0.5 for the temperatures in the sampling tasks; in each case a sample whose
delta is below the code's threshold is ignored: the state field keeps its
old value, and when every delta is below threshold `update_outputs` leaves
the state unchanged and issues no hardware command. -/
theorem C1_change_gate_thresholds (st : FanpicoState) (cd cf : Nat → ℚ) (i : Nat) :
    ((update_outputs st cd cf).st.fan_duty[i]?
        = (st.fan_duty[i]?).map
            (fun old => if (1 : ℚ)/10 ≤ |cd i - old| then cd i else old)) ∧
    ((update_outputs st cd cf).st.mbfan_freq[i]?
        = (st.mbfan_freq[i]?).map
            (fun old => if (1 : ℚ)/10 ≤ |cf i - old| then cf i else old)) ∧
    (∀ (duty : List ℚ) (raw : Nat → ℚ),
        (read_pwm_task duty raw).1[i]?
          = (duty[i]?).map
              (fun old => if (1 : ℚ)/2 ≤ |roundf (raw i) - old| then roundf (raw i) else old)) ∧
    (∀ (tl : List ℚ) (temps : Nat → ℚ),
        (read_temp_task tl temps).1[i]?
          = (tl[i]?).map
              (fun old => if (1 : ℚ)/2 ≤ |temps i - old| then temps i else old)) ∧
    ((∀ k old, st.fan_duty[k]? = some old → |cd k - old| < 1/10) →
      (∀ k old, st.mbfan_freq[k]? = some old → |cf k - old| < 1/10) →
      (update_outputs st cd cf).st = st ∧ (update_outputs st cd cf).pwm_cmds = [] ∧
        (update_outputs st cd cf).tacho_cmds = []) := by
  refine ⟨?_, ?_, ?_, ?_, ?_⟩
  · have h := gateLoop_fst_getElem cd (1/10) st.fan_duty 0 i
    simpa [update_outputs] using h
  · have h := gateLoop_fst_getElem cf (1/10) st.mbfan_freq 0 i
    simpa [update_outputs] using h
  · intro duty raw
    have h := gateLoop_fst_getElem (fun k => roundf (raw k)) (1/2) duty 0 i
    simpa [read_pwm_task] using h
  · intro tl temps
    have h := gateLoop_fst_getElem temps (1/2) tl 0 i
    simpa [read_temp_task] using h
  · intro h1 h2
    have e1 : gateLoop cd (1/10) 0 st.fan_duty = (st.fan_duty, []) :=
      gateLoop_below cd (1/10) st.fan_duty 0 (fun k old hk => by simpa using h1 k old hk)
    have e2 : gateLoop cf (1/10) 0 st.mbfan_freq = (st.mbfan_freq, []) :=
      gateLoop_below cf (1/10) st.mbfan_freq 0 (fun k old hk => by simpa using h2 k old hk)
    refine ⟨?_, ?_, ?_⟩ <;> simp only [update_outputs, e1, e2]

theorem C1_witness :
    (update_outputs ⟨[10], [], [], [5], []⟩ (fun _ => 10) (fun _ => 5)).st
      = (⟨[10], [], [], [5], []⟩ : FanpicoState) ∧
    (update_outputs ⟨[10], [], [], [5], []⟩ (fun _ => 10) (fun _ => 5)).pwm_cmds = [] ∧
    (update_outputs ⟨[10], [], [], [5], []⟩ (fun _ => 10) (fun _ => 5)).tacho_cmds = [] :=
  (C1_change_gate_thresholds _ _ _ 0).2.2.2.2
    (fun k old hk => by
      match k with
      | 0 =>
        simp at hk
        rw [← hk]
        norm_num
      | n + 1 => simp at hk)
    (fun k old hk => by
      match k with
      | 0 =>
        simp at hk
        rw [← hk]
        norm_num
      | n + 1 => simp at hk)

/-! ## State-invariant claims -/

theorem roundf_int (q : ℚ) : ∃ k : ℤ, roundf q = (k : ℚ) := ⟨_, rfl⟩

theorem main_iter_preserves_mbfan_int (ls : LoopState) (env : Env)
    (h : ∀ x ∈ ls.st.mbfan_duty, ∃ k : ℤ, x = (k : ℚ)) :
    ∀ x ∈ (main_loop_iter ls env).ls.st.mbfan_duty, ∃ k : ℤ, x = (k : ℚ) := by
  have e : (main_loop_iter ls env).ls.st.mbfan_duty = (duty_step ls env).1 := by
    show (out_step ls env).st.mbfan_duty = (duty_step ls env).1
    unfold out_step
    by_cases hf : (p_output ls env).1 = true
    · simp [hf, update_outputs, sampled_state]
    · simp [hf, sampled_state]
  intro x hx
  rw [e] at hx
  unfold duty_step at hx
  by_cases hp : (p_pwm ls env).1 = true
  · rw [if_pos hp] at hx
    unfold read_pwm_task at hx
    rcases gateLoop_fst_mem _ _ _ _ _ hx with hm | ⟨i, rfl⟩
    · exact h x hm
    · exact roundf_int _
  · rw [if_neg hp] at hx
    exact h x hx

theorem main_run_preserves_mbfan_int (envs : List Env) : ∀ (ls : LoopState),
    (∀ x ∈ ls.st.mbfan_duty, ∃ k : ℤ, x = (k : ℚ)) →
    ∀ x ∈ (main_loop_run ls envs).st.mbfan_duty, ∃ k : ℤ, x = (k : ℚ) := by
  induction envs with
  | nil => intro ls h; exact h
  | cons e es ih =>
    intro ls h
    show ∀ x ∈ (main_loop_run (main_loop_iter ls e).ls es).st.mbfan_duty, _
    exact ih _ (main_iter_preserves_mbfan_int ls e h)

/-- C10: every element of the mbfan duty-cycle array is integer-valued:
`clear_state` initialises it to 0.0, and every later write stores a
`roundf`-rounded sample, so after any run of the scheduler loop from the
boot state every entry equals an integer. -/
theorem C10_mbfan_duty_integer :
    (∀ (nMbfan nFan nSensor : Nat),
        ∀ x ∈ (clear_state nMbfan nFan nSensor).mbfan_duty, x = 0) ∧
    (∀ (boot nMbfan nFan nSensor : Nat) (envs : List Env),
        ∀ x ∈ (main_loop_run (main_init boot nMbfan nFan nSensor) envs).st.mbfan_duty,
          ∃ k : ℤ, x = (k : ℚ)) := by
  constructor
  · intro n _ _ x hx
    exact List.eq_of_mem_replicate hx
  · intro boot n nf ns envs
    refine main_run_preserves_mbfan_int envs _ ?_
    intro y hy
    exact ⟨0, by simpa using List.eq_of_mem_replicate hy⟩

theorem C10_witness :
    ((0 : ℚ) ∈ (clear_state 1 1 1).mbfan_duty ∧ (0 : ℚ) = 0) ∧
    ((0 : ℚ) ∈ (main_loop_run (main_init 0 1 1 1) []).st.mbfan_duty ∧
      ∃ k : ℤ, (0 : ℚ) = (k : ℚ)) :=
  ⟨⟨List.mem_singleton.mpr rfl,
    C10_mbfan_duty_integer.1 1 1 1 0 (List.mem_singleton.mpr rfl)⟩,
   ⟨List.mem_singleton.mpr rfl,
    C10_mbfan_duty_integer.2 0 1 1 1 [] 0 (List.mem_singleton.mpr rfl)⟩⟩

end Fanpico
